import Mathlib

/-!
Shallow embedding of the `nested_ner_ru` repository (Solution_2/model):
`inference_instruct.py`, `train_instruct.py` and `nerel_reader.py`, together
with proofs of the specification claims about them.

Python machine-level details are modelled explicitly:
* Python ints are `Int`; list indices and slice bounds follow Python slicing.
* Fallible operations (`range` with step 0, `np.concatenate` on an empty
  list) return `Option`.
* Calls into external ML libraries (tokenizer, `model.generate`,
  `extract_classes`, `json.load`) are abstracted as function parameters, so
  theorems quantify over their behaviour.
-/

namespace NestedNer

/-! ### `batch` from `inference_instruct.py` (lines 16-19)

```python
def batch(iterable, n=4):
    l = len(iterable)
    for ndx in range(0, l, n):
        yield iterable[ndx:min(ndx + n, l)]
```

For step `n >= 1` this chunks the list into consecutive slices of size `n`
(last one possibly shorter).  `range(0, l, 0)` raises `ValueError`
(modelled as `none`); a negative step gives an empty `range` whenever
`l >= 0`, hence no chunks. -/

/-- Chunking with positive chunk size `m + 1` (so the size is never zero). -/
def batchAux (m : Nat) : List α → List (List α)
  | [] => []
  | x :: xs => ((x :: xs).take (m + 1)) :: batchAux m ((x :: xs).drop (m + 1))
termination_by xs => xs.length
decreasing_by
  simp only [List.length_drop, List.length_cons]
  omega

/-- The Python generator `batch`, materialised as a list of chunks.
`n = 0` raises `ValueError` in Python (`none` here); `n < 0` yields no
chunks because `range(0, l, n)` is empty. -/
def batch (xs : List α) (n : Int) : Option (List (List α)) :=
  if n = 0 then none
  else if n < 0 then some []
  else some (batchAux (n.toNat - 1) xs)

/-! ### Instruction records and the inference pipeline
(`inference_instruct.py`, lines 119-154)

An instruction record carries the fields the scripts access:
`id`, `source`, `target` and `raw_entities`.  The entity payloads are kept
abstract (serialised as strings).  Library calls are parameters:
`gen` is `tokenizer` + `model.generate` + `tokenizer.decode` per source
(one output sequence per input, in input order, as hypothesised by the
claim) and `extract_classes` is the string parser from `metric.py`. -/

structure Instruction where
  id : String
  source : String
  target : String
  raw_entities : String
  deriving Repr, DecidableEq

/-- `np.concatenate`: raises `ValueError` on an empty list of arrays. -/
def npConcatenate (ls : List (List α)) : Option (List α) :=
  match ls with
  | [] => none
  | _ :: _ => some ls.flatten

/-- The four columns of the `pd.DataFrame` written to `prediction_path`. -/
structure PredictionFrame (E : Type) where
  id : List String
  extracted : List E
  target : List String
  generated_text : List String
  deriving Repr, DecidableEq

/-- Lines 119-154 of `inference_instruct.py`: gather the per-instruction
fields, cut them into batches, run generation batch by batch (one decoded
string per source, in order), extract entity spans from each decoded
string, and re-concatenate the id/target batches with `np.concatenate`. -/
def runInference (E : Type) (gen : String → String) (extract_classes : String → E)
    (test_dataset : List Instruction) (batch_size : Int) :
    Option (PredictionFrame E) := do
  let target_list := test_dataset.map (fun i => i.raw_entities)
  let instruction_ids := test_dataset.map (fun i => i.id)
  let sources := test_dataset.map (fun i => i.source)
  let target_batches ← batch target_list batch_size
  let id_batches ← batch instruction_ids batch_size
  let source_batches ← batch sources batch_size
  let generated_texts := (source_batches.map (fun b => b.map gen)).flatten
  let extracted_list := generated_texts.map extract_classes
  let id_col ← npConcatenate id_batches
  let target_col ← npConcatenate target_batches
  pure ⟨id_col, extracted_list, target_col, generated_texts⟩

/-! ### Model assembly in the inference script (lines 38-69)

The inference script builds its model by a fixed sequence of library
calls; we record the resulting object symbolically, together with whether
`model.eval()` has been called. -/

/-- Symbolic model values produced by the library calls of the script. -/
inductive ModelExpr where
  | fromPretrained8bit (model_name : String)
  | get_peft_model (base : ModelExpr) (lora : String)
  | peftFromPretrained (base : ModelExpr) (model_name : String)
  | torchCompile (base : ModelExpr)
  deriving Repr, DecidableEq

structure ModelState where
  expr : ModelExpr
  evalMode : Bool
  deriving Repr, DecidableEq

/-- Lines 38-69 of `inference_instruct.py`:
base model loaded in 8-bit from `arguments.model_name`, wrapped by
`get_peft_model` with the config-file LoRA parameters, then the trained
adapter weights from `arguments.model_name` attached via
`PeftModel.from_pretrained`, then `model.eval()`, then `torch.compile`
(which preserves eval mode). -/
def inferenceModelSetup (model_name : String) (lora : String) : ModelState :=
  let m0 : ModelState := ⟨ModelExpr.fromPretrained8bit model_name, false⟩
  let m1 : ModelState := ⟨ModelExpr.get_peft_model m0.expr lora, m0.evalMode⟩
  let m2 : ModelState := ⟨ModelExpr.peftFromPretrained m1.expr model_name, m1.evalMode⟩
  let m3 : ModelState := ⟨m2.expr, true⟩
  let m4 : ModelState := ⟨ModelExpr.torchCompile m3.expr, m3.evalMode⟩
  m4

/-- The order of the relevant statements in the script body. -/
inductive ScriptEvent where
  | loadBaseModel8bit
  | attachFreshLora
  | attachTrainedAdapter
  | setEvalMode
  | compileModel
  | generateBatch
  deriving Repr, DecidableEq

def inferenceScriptEvents : List ScriptEvent :=
  [ScriptEvent.loadBaseModel8bit, ScriptEvent.attachFreshLora,
   ScriptEvent.attachTrainedAdapter, ScriptEvent.setEvalMode,
   ScriptEvent.compileModel, ScriptEvent.generateBatch]

/-! ### The training configuration (`train_instruct.py`, `train`)

Fields read with `config.get(...)` are optional (`Option`), fields read
with `config[...]` are required (a missing one is a `KeyError` before any
of the behaviour in the claims). -/

structure TrainConfig where
  model_name : String
  lora : Option String
  only_target_loss : Option Bool
  max_source_tokens_count : Int
  max_target_tokens_count : Int
  load_in_8bit : Option Bool
  is_adapter : Bool
  deriving Repr, DecidableEq

/-- The arguments `train` passes to an `InstructDataset` constructor
(lines 62-78 of `train_instruct.py`). -/
structure InstructDatasetArgs where
  instructions : List Instruction
  max_source_tokens_count : Int
  max_target_tokens_count : Int
  model_type : String
  only_target_loss : Bool
  deriving Repr, DecidableEq

/-- Lines 58-78 of `train_instruct.py`: the two `InstructDataset`
instances built by `train`. -/
def trainInstructDatasets (config : TrainConfig)
    (train_instructions test_instructions : List Instruction)
    (model_type : String) : InstructDatasetArgs × InstructDatasetArgs :=
  let only_target_loss := config.only_target_loss.getD true
  let max_source_tokens_count := config.max_source_tokens_count
  let max_target_tokens_count := config.max_target_tokens_count
  (⟨train_instructions, max_source_tokens_count, max_target_tokens_count,
     model_type, only_target_loss⟩,
   ⟨test_instructions, max_source_tokens_count, max_target_tokens_count,
     model_type, only_target_loss⟩)

/-! ### Model loading in `train` (lines 82-115) -/

/-- The three ways `train` can build its model. -/
inductive TrainModelExpr where
  | adapter8bit (base_model_name_or_path : String) (model_name : String)
  | fresh8bit (model_name : String) (lora : String)
  | fullPrecision (model_name : String)
  deriving Repr, DecidableEq

/-- A loaded model together with the two generation-config fields that
lines 112-115 assign. -/
structure TrainModel where
  expr : TrainModelExpr
  num_beams : Int
  max_length : Int
  deriving Repr, DecidableEq

/-- Lines 82-110 of `train_instruct.py`.  `peft_base_path` stands for
`PeftConfig.from_pretrained(model_name).base_model_name_or_path`;
`initBeams`/`initLen` stand for whatever generation defaults the
pretrained checkpoint carries.  In the fresh-8-bit branch the script
evaluates `LoraConfig(**lora_config)`, which raises `TypeError` when the
config file has no `lora` entry (modelled as `none`). -/
def loadTrainModel (config : TrainConfig) (peft_base_path : String)
    (initBeams initLen : TrainModelExpr → Int) : Option TrainModel :=
  if config.load_in_8bit.getD true then
    if config.is_adapter then
      let e := TrainModelExpr.adapter8bit peft_base_path config.model_name
      some ⟨e, initBeams e, initLen e⟩
    else
      match config.lora with
      | none => none
      | some lora =>
        let e := TrainModelExpr.fresh8bit config.model_name lora
        some ⟨e, initBeams e, initLen e⟩
  else
    let e := TrainModelExpr.fullPrecision config.model_name
    some ⟨e, initBeams e, initLen e⟩

/-- Lines 112-115 of `train_instruct.py`:
`model.config.num_beams = 5` and
`model.config.max_length = max_target_tokens_count + max_source_tokens_count + 1`. -/
def trainSetGenerationDefaults (config : TrainConfig) (model : TrainModel) :
    TrainModel :=
  let max_tokens_count :=
    config.max_target_tokens_count + config.max_source_tokens_count + 1
  ⟨model.expr, 5, max_tokens_count⟩

/-! ### Dataset selection by name (both entry points) -/

/-- Which reader function a branch calls, and from which module. -/
inductive ReaderFn where
  | create_train_test_instruct_datasets (module : String)
  | create_instruct_dataset (module : String)
  deriving Repr, DecidableEq

/-- The names with a branch in the `if/elif` chains of both scripts. -/
def supportedDatasetNames : List String :=
  ["nerel", "rudrec", "nerel_bio", "conll2003", "multiconer2023"]

/-- Lines 170-217 of `train_instruct.py`: the reader calls made for a
given `--dataset_name` (two entries when the script calls the reader once
for the train split and once for the dev/validation split). -/
def trainDatasetDispatch (dataset_name : String) : Option (List ReaderFn) :=
  if dataset_name = "nerel" then
    some [ReaderFn.create_train_test_instruct_datasets "utils.nerel.nerel_reader"]
  else if dataset_name = "rudrec" then
    some [ReaderFn.create_train_test_instruct_datasets "utils.rudrec.rudrec_reader"]
  else if dataset_name = "nerel_bio" then
    some [ReaderFn.create_instruct_dataset "utils.nerel_bio.nerel_reader",
          ReaderFn.create_instruct_dataset "utils.nerel_bio.nerel_reader"]
  else if dataset_name = "conll2003" then
    some [ReaderFn.create_instruct_dataset "utils.conll2003.conll_reader",
          ReaderFn.create_instruct_dataset "utils.conll2003.conll_reader"]
  else if dataset_name = "multiconer2023" then
    some [ReaderFn.create_instruct_dataset "utils.multiconer2023.multiconer_reader",
          ReaderFn.create_instruct_dataset "utils.multiconer2023.multiconer_reader"]
  else none

/-- Lines 75-117 of `inference_instruct.py`: the reader call made for a
given `--dataset_name`. -/
def inferenceDatasetDispatch (dataset_name : String) : Option ReaderFn :=
  if dataset_name = "nerel" then
    some (ReaderFn.create_instruct_dataset "utils.nerel.nerel_reader")
  else if dataset_name = "rudrec" then
    some (ReaderFn.create_train_test_instruct_datasets "utils.rudrec.rudrec_reader")
  else if dataset_name = "nerel_bio" then
    some (ReaderFn.create_instruct_dataset "utils.nerel_bio.nerel_reader")
  else if dataset_name = "conll2003" then
    some (ReaderFn.create_instruct_dataset "utils.conll2003.conll_reader")
  else if dataset_name = "multiconer2023" then
    some (ReaderFn.create_instruct_dataset "utils.multiconer2023.multiconer_reader")
  else none

/-! ### Error surfacing (claim C6)

The three source files contain no exception class definitions and no
`raise` statements; the lists below enumerate them (they are empty).
When `--dataset_name` matches no branch, the dataset variables are never
assigned and the next use raises `NameError` — an exception produced by
the Python runtime, not by any error-handling logic of the repository. -/

inductive ExnOrigin where
  | repo
  | runtime
  | library
  deriving Repr, DecidableEq

structure PyException where
  exnName : String
  origin : ExnOrigin
  deriving Repr, DecidableEq

/-- Exception classes defined in the repository source files: none. -/
def customExceptionClasses : List String := []

/-- `raise` statements in the repository source files: none. -/
def repoRaiseStatements : List String := []

/-- Reading a Python variable that the matched-less `if/elif` chain never
assigned: `NameError` from the runtime. -/
def pyVarLookup (assigned : Option α) : Except PyException α :=
  match assigned with
  | some v => Except.ok v
  | none => Except.error ⟨"NameError", ExnOrigin.runtime⟩

/-- The inference script's use of `test_dataset` after its `if/elif`
chain (line 125). -/
def inferenceSelectDataset (dataset_name : String) : Except PyException ReaderFn :=
  pyVarLookup (inferenceDatasetDispatch dataset_name)

/-- The training script's use of `train_dataset`/`test_dataset` after its
`if/elif` chain (lines 219-230). -/
def trainSelectDataset (dataset_name : String) : Except PyException (List ReaderFn) :=
  pyVarLookup (trainDatasetDispatch dataset_name)

/-! ### `nerel_reader.py`

Both functions ignore every parameter and return the parsed contents of
fixed files.  `json_load` stands for `open` + `json.load` on a path. -/

namespace nerel_reader

def create_train_test_instruct_datasets (D : Type) (json_load : String → D)
    (data_path : String) (max_instances : Int) (text_n_splits : Option Int)
    (short_form_output : Bool) (test_size : Float) (random_seed : Int) :
    D × D :=
  (json_load "utils/nerel/train_data.jsonl",
   json_load "utils/nerel/val_data.jsonl")

def create_instruct_dataset (D : Type) (json_load : String → D)
    (data_path : String) (max_instances : Int) (text_n_splits : Option Int)
    (short_form_output : Bool) : D :=
  json_load "utils/nerel/test_data.jsonl"

end nerel_reader

/-! ### The rudrec `max_instances` cap (`inference_instruct.py`, lines 89-90) -/

/-- Python list slicing `xs[:k]` (upper bound only): a non-negative bound
takes the first `k` elements, a negative bound counts from the end. -/
def pySliceTo (xs : List α) (k : Int) : List α :=
  if 0 ≤ k then xs.take k.toNat
  else xs.take (xs.length - (-k).toNat)

/-- Lines 89-90 of `inference_instruct.py`:
```python
if arguments.max_instances != -1 and arguments.max_instances < len(test_dataset):
    test_dataset = test_dataset[:arguments.max_instances]
``` -/
def rudrecApplyMaxInstances (test_dataset : List α) (max_instances : Int) :
    List α :=
  if max_instances ≠ -1 ∧ max_instances < (test_dataset.length : Int) then
    pySliceTo test_dataset max_instances
  else test_dataset

/-! ### Lemmas about `batchAux` and `batch` -/

theorem batchAux_nil (m : Nat) : batchAux m ([] : List α) = [] := by
  rw [batchAux]

theorem batchAux_cons (m : Nat) (x : α) (xs : List α) :
    batchAux m (x :: xs)
      = ((x :: xs).take (m + 1)) :: batchAux m ((x :: xs).drop (m + 1)) := by
  rw [batchAux]

theorem batchAux_cons_eq (m : Nat) (xs : List α) (h : xs ≠ []) :
    batchAux m xs = xs.take (m + 1) :: batchAux m (xs.drop (m + 1)) := by
  cases xs with
  | nil => exact absurd rfl h
  | cons x xs => exact batchAux_cons m x xs

theorem batchAux_ne_nil (m : Nat) (xs : List α) (h : xs ≠ []) :
    batchAux m xs ≠ [] := by
  rw [batchAux_cons_eq m xs h]
  exact List.cons_ne_nil _ _

theorem batchAux_flatten (m : Nat) (xs : List α) :
    (batchAux m xs).flatten = xs := by
  generalize hl : xs.length = l
  induction l using Nat.strong_induction_on generalizing xs with
  | _ l ih =>
    cases xs with
    | nil => simp [batchAux_nil]
    | cons x xs =>
      subst hl
      rw [batchAux_cons]
      have hlt : ((x :: xs).drop (m + 1)).length < (x :: xs).length := by
        simp only [List.length_drop, List.length_cons]
        omega
      rw [List.flatten_cons, ih _ hlt _ rfl, List.take_append_drop]

theorem batchAux_length (m : Nat) (xs : List α) :
    (batchAux m xs).length = (xs.length + m) / (m + 1) := by
  generalize hl : xs.length = l
  induction l using Nat.strong_induction_on generalizing xs with
  | _ l ih =>
    cases xs with
    | nil =>
      subst hl
      simp [batchAux_nil, Nat.div_eq_of_lt (show m < m + 1 by omega)]
    | cons x xs =>
      subst hl
      rw [batchAux_cons]
      have hlt : ((x :: xs).drop (m + 1)).length < (x :: xs).length := by
        simp only [List.length_drop, List.length_cons]
        omega
      rw [List.length_cons, ih _ hlt _ rfl]
      simp only [List.length_drop, List.length_cons]
      rcases Nat.lt_or_ge (xs.length + 1) (m + 1) with hsmall | hbig
      · have h1 : xs.length + 1 - (m + 1) = 0 := by omega
        rw [h1]
        have h2 : (0 + m) / (m + 1) = 0 := Nat.div_eq_of_lt (by omega)
        have h3 : (xs.length + 1 + m) / (m + 1) = 1 :=
          Nat.div_eq_of_lt_le (by omega) (by omega)
        omega
      · have key : xs.length + 1 + m = (xs.length + 1 - (m + 1) + m) + (m + 1) := by
          omega
        rw [key, Nat.add_div_right _ (by omega : 0 < m + 1)]

theorem batchAux_dropLast_length (m : Nat) (xs : List α) :
    ∀ c ∈ (batchAux m xs).dropLast, c.length = m + 1 := by
  generalize hl : xs.length = l
  induction l using Nat.strong_induction_on generalizing xs with
  | _ l ih =>
    cases xs with
    | nil => simp [batchAux_nil]
    | cons x xs =>
      subst hl
      rw [batchAux_cons]
      intro c hc
      by_cases hdrop : (x :: xs).drop (m + 1) = []
      · rw [hdrop, batchAux_nil] at hc
        simp at hc
      · have htail := batchAux_ne_nil m _ hdrop
        rw [List.dropLast_cons_of_ne_nil htail] at hc
        rcases List.mem_cons.mp hc with hhead | htl
        · subst hhead
          have hlen : m + 1 < (x :: xs).length :=
            List.length_lt_of_drop_ne_nil hdrop
          simp only [List.length_cons] at hlen
          simp [List.length_take, List.length_cons]
          omega
        · have hlt : ((x :: xs).drop (m + 1)).length < (x :: xs).length := by
            simp only [List.length_drop, List.length_cons]
            omega
          exact ih _ hlt _ rfl c htl

theorem batchAux_getLast? (m : Nat) (xs : List α) (h : xs ≠ []) :
    ∃ lc, (batchAux m xs).getLast? = some lc ∧
      lc.length = xs.length - (m + 1) * ((batchAux m xs).length - 1) := by
  revert h
  generalize hl : xs.length = l
  induction l using Nat.strong_induction_on generalizing xs with
  | _ l ih =>
    intro h
    subst hl
    rw [batchAux_cons_eq m xs h]
    by_cases hdrop : xs.drop (m + 1) = []
    · rw [hdrop, batchAux_nil]
      refine ⟨xs.take (m + 1), by simp, ?_⟩
      have hle : xs.length ≤ m + 1 := by
        by_contra hgt
        have hne : xs.drop (m + 1) ≠ [] := by
          intro hnil
          have := congrArg List.length hnil
          simp only [List.length_drop, List.length_nil] at this
          omega
        exact hne hdrop
      simp [List.length_take]
      omega
    · have hpos : 0 < xs.length := List.length_pos.mpr h
      have hlt : (xs.drop (m + 1)).length < xs.length := by
        simp only [List.length_drop]
        omega
      have htail := batchAux_ne_nil m _ hdrop
      obtain ⟨lc, hlc, hlen⟩ := ih _ hlt _ rfl hdrop
      refine ⟨lc, ?_, ?_⟩
      · cases hb : batchAux m (xs.drop (m + 1)) with
        | nil => exact absurd hb htail
        | cons a as =>
          rw [hb] at hlc
          rw [List.getLast?_cons_cons]
          exact hlc
      · have hlenxs : m + 1 < xs.length := by
          have := List.length_lt_of_drop_ne_nil hdrop
          omega
        have hcount : 0 < (batchAux m (xs.drop (m + 1))).length :=
          List.length_pos.mpr htail
        rw [hlen]
        simp only [List.length_drop, List.length_cons]
        generalize hr : (batchAux m (xs.drop (m + 1))).length = r
        rw [hr] at hcount
        have hrw : (m + 1) * (r + 1 - 1) = (m + 1) * (r - 1) + (m + 1) := by
          have hr1 : r = (r - 1) + 1 := by omega
          calc (m + 1) * (r + 1 - 1) = (m + 1) * r := by
                have hid : r + 1 - 1 = r := by omega
                rw [hid]
            _ = (m + 1) * ((r - 1) + 1) := by rw [← hr1]
            _ = (m + 1) * (r - 1) + (m + 1) := by ring
        rw [hrw]
        omega

/-! ### Helper lemmas about the inference pipeline -/

theorem batch_pos (xs : List α) (n : Int) (hn : 1 ≤ n) :
    batch xs n = some (batchAux (n.toNat - 1) xs) := by
  unfold batch
  rw [if_neg (by omega), if_neg (by omega)]

theorem npConcatenate_ne_nil (ls : List (List α)) (h : ls ≠ []) :
    npConcatenate ls = some ls.flatten := by
  cases ls with
  | nil => exact absurd rfl h
  | cons a as => rfl

theorem batchAux_map_flatten (m : Nat) (xs : List α) (f : α → β) :
    ((batchAux m xs).map (fun b => b.map f)).flatten = xs.map f := by
  have h := List.map_flatten f (batchAux m xs)
  rw [batchAux_flatten] at h
  rw [← h]

theorem runInference_spec (E : Type) (gen : String → String)
    (extract_classes : String → E) (ds : List Instruction) (n : Int)
    (hn : 1 ≤ n) (hds : ds ≠ []) :
    runInference E gen extract_classes ds n
      = some ⟨ds.map (fun i => i.id),
              ds.map (fun i => extract_classes (gen i.source)),
              ds.map (fun i => i.raw_entities),
              ds.map (fun i => gen i.source)⟩ := by
  have hmapne : ∀ (f : Instruction → String), ds.map f ≠ [] := by
    intro f hnil
    exact hds (List.map_eq_nil_iff.mp hnil)
  have hne : ∀ (f : Instruction → String),
      batchAux (n.toNat - 1) (ds.map f) ≠ [] :=
    fun f => batchAux_ne_nil _ _ (hmapne f)
  unfold runInference
  dsimp only
  rw [batch_pos _ n hn, batch_pos _ n hn, batch_pos _ n hn]
  simp only [Option.bind_eq_bind, Option.some_bind]
  rw [npConcatenate_ne_nil _ (hne (fun i => i.id)),
      npConcatenate_ne_nil _ (hne (fun i => i.raw_entities))]
  simp only [Option.some_bind]
  rw [batchAux_flatten, batchAux_flatten]
  have hgen : ((batchAux (n.toNat - 1) (ds.map (fun i => i.source))).map
      (fun b => b.map gen)).flatten = (ds.map (fun i => i.source)).map gen :=
    batchAux_map_flatten _ _ _
  rw [hgen]
  simp [List.map_map, Function.comp]

theorem runInference_nil (E : Type) (gen : String → String)
    (extract_classes : String → E) (n : Int) :
    runInference E gen extract_classes [] n = none := by
  unfold runInference
  dsimp only
  by_cases h0 : n = 0
  · subst h0
    rfl
  · by_cases hneg : n < 0
    · unfold batch
      simp only [if_neg h0, if_pos hneg]
      rfl
    · have h1 : 1 ≤ n := by omega
      rw [batch_pos _ n h1, batch_pos _ n h1, batch_pos _ n h1]
      simp [batchAux_nil, npConcatenate]

/-! ### Claim theorems -/

/-- C1 counterexample: the claim promises a prediction table for every
test dataset, but on the empty dataset the script reaches
`np.concatenate` with an empty list of batches and raises `ValueError`,
so no table is written. -/
theorem inference_empty_dataset_no_output :
    runInference String (fun s => s) (fun s => s) [] 4 = none :=
  runInference_nil String (fun s => s) (fun s => s) 4

/-- C1 (amended: nonempty test dataset, positive batch size): the
inference script produces a table with exactly the columns `id`,
`extracted`, `target` and `generated_text`, one row per instruction in the
dataset's original order, where row `i` holds instruction `i`'s id, its
`raw_entities` as target, the text generated from its source, and
`extract_classes` applied to that generated text — under the hypothesis
that generation returns exactly one output sequence per input in input
order. -/
theorem inference_prediction_frame_rows (E : Type) (gen : String → String)
    (extract_classes : String → E) (test_dataset : List Instruction)
    (batch_size : Int) (hbs : 1 ≤ batch_size) (hne : test_dataset ≠ []) :
    ∃ frame : PredictionFrame E,
      runInference E gen extract_classes test_dataset batch_size = some frame
      ∧ frame.id = test_dataset.map (fun i => i.id)
      ∧ frame.target = test_dataset.map (fun i => i.raw_entities)
      ∧ frame.generated_text = test_dataset.map (fun i => gen i.source)
      ∧ frame.extracted = test_dataset.map (fun i => extract_classes (gen i.source))
      ∧ frame.id.length = test_dataset.length
      ∧ frame.extracted.length = test_dataset.length
      ∧ frame.target.length = test_dataset.length
      ∧ frame.generated_text.length = test_dataset.length := by
  refine ⟨_, runInference_spec E gen extract_classes test_dataset batch_size hbs hne,
    rfl, rfl, rfl, rfl, ?_, ?_, ?_, ?_⟩ <;> simp

theorem inference_prediction_frame_rows_witness :
    ∃ frame : PredictionFrame String,
      runInference String (fun s => s) (fun s => s)
          [⟨"0", "src", "tgt", "ents"⟩] 4 = some frame
      ∧ frame.id = ["0"] ∧ frame.target = ["ents"]
      ∧ frame.generated_text = ["src"] ∧ frame.extracted = ["src"] := by
  obtain ⟨frame, h1, h2, h3, h4, h5, _⟩ :=
    inference_prediction_frame_rows String (fun s => s) (fun s => s)
      [⟨"0", "src", "tgt", "ents"⟩] 4 (by decide) (by decide)
  exact ⟨frame, h1, by simpa using h2, by simpa using h3,
    by simpa using h4, by simpa using h5⟩

/-- C2: for every list `xs` and integer `n ≥ 1`, concatenating the chunks
yielded by `batch(xs, n)` in order gives back `xs`; consequently whenever
the inference pipeline (which re-concatenates the id and target batches
with `np.concatenate`) produces a frame, its `id` and `target` columns are
in the original dataset order. -/
theorem batch_concat_preserves_order (xs : List α) (n : Int) (hn : 1 ≤ n) :
    (∃ cs, batch xs n = some cs ∧ cs.flatten = xs)
    ∧ ∀ (E : Type) (gen : String → String) (extract_classes : String → E)
        (ds : List Instruction) (frame : PredictionFrame E),
        runInference E gen extract_classes ds n = some frame →
        frame.id = ds.map (fun i => i.id)
        ∧ frame.target = ds.map (fun i => i.raw_entities) := by
  constructor
  · exact ⟨_, batch_pos xs n hn, batchAux_flatten _ _⟩
  · intro E gen extract_classes ds frame hframe
    by_cases hds : ds = []
    · subst hds
      rw [runInference_nil] at hframe
      exact absurd hframe (by simp)
    · rw [runInference_spec E gen extract_classes ds n hn hds] at hframe
      injection hframe with hfr
      subst hfr
      exact ⟨rfl, rfl⟩

theorem batch_concat_preserves_order_witness :
    (∃ cs, batch ["a", "b", "c"] 2 = some cs ∧ cs.flatten = ["a", "b", "c"])
    ∧ ∀ (E : Type) (gen : String → String) (extract_classes : String → E)
        (ds : List Instruction) (frame : PredictionFrame E),
        runInference E gen extract_classes ds 2 = some frame →
        frame.id = ds.map (fun i => i.id)
        ∧ frame.target = ds.map (fun i => i.raw_entities) :=
  batch_concat_preserves_order ["a", "b", "c"] 2 (by decide)

/-- C7: for every list `xs` of length `l > 0` and integer `n ≥ 1`,
`batch(xs, n)` yields exactly `⌈l / n⌉ = (l + n - 1) / n` chunks; every
chunk except possibly the last has length exactly `n`, and the last chunk
has length `l - n * (⌈l / n⌉ - 1)`; for `l = 0` it yields no chunks. -/
theorem batch_chunk_shapes (xs : List α) (n : Int) (hn : 1 ≤ n) :
    ∃ cs, batch xs n = some cs
      ∧ (xs = [] → cs = [])
      ∧ (xs ≠ [] →
          cs.length = (xs.length + n.toNat - 1) / n.toNat
          ∧ (∀ c ∈ cs.dropLast, c.length = n.toNat)
          ∧ ∃ lc, cs.getLast? = some lc
              ∧ lc.length = xs.length - n.toNat * (cs.length - 1)) := by
  have hm : n.toNat - 1 + 1 = n.toNat := by omega
  refine ⟨batchAux (n.toNat - 1) xs, batch_pos xs n hn, ?_, ?_⟩
  · intro h
    subst h
    exact batchAux_nil _
  · intro hne
    refine ⟨?_, ?_, ?_⟩
    · rw [batchAux_length]
      congr 1
      all_goals omega
    · intro c hc
      have := batchAux_dropLast_length (n.toNat - 1) xs c hc
      omega
    · obtain ⟨lc, h1, h2⟩ := batchAux_getLast? (n.toNat - 1) xs hne
      rw [hm] at h2
      exact ⟨lc, h1, h2⟩

theorem batch_chunk_shapes_witness :
    ∃ cs, batch [0, 1, 2, 3, 4] 2 = some cs
      ∧ (([0, 1, 2, 3, 4] : List Nat) = [] → cs = [])
      ∧ (([0, 1, 2, 3, 4] : List Nat) ≠ [] →
          cs.length = (([0, 1, 2, 3, 4] : List Nat).length + (2 : Int).toNat - 1)
              / (2 : Int).toNat
          ∧ (∀ c ∈ cs.dropLast, c.length = (2 : Int).toNat)
          ∧ ∃ lc, cs.getLast? = some lc
              ∧ lc.length = ([0, 1, 2, 3, 4] : List Nat).length
                  - (2 : Int).toNat * (cs.length - 1)) :=
  batch_chunk_shapes [0, 1, 2, 3, 4] 2 (by decide)

/-- C3: the model used for generation at inference is the pretrained base
causal language model loaded in 8-bit from `model_name`, with the trained
low-rank adapter weights from `model_name` attached (via an intermediate
`get_peft_model` wrap and a final `torch.compile`), and `model.eval()` is
executed before any generation call. -/
theorem inference_model_assembly (model_name lora : String) :
    (inferenceModelSetup model_name lora).evalMode = true
    ∧ (inferenceModelSetup model_name lora).expr
        = ModelExpr.torchCompile
            (ModelExpr.peftFromPretrained
              (ModelExpr.get_peft_model
                (ModelExpr.fromPretrained8bit model_name) lora)
              model_name)
    ∧ inferenceScriptEvents.indexOf ScriptEvent.setEvalMode
        < inferenceScriptEvents.indexOf ScriptEvent.generateBatch :=
  ⟨rfl, rfl, by decide⟩

/-- C4: `train` builds both `InstructDataset` instances with
`only_target_loss = config.get("only_target_loss", True)`, which defaults
to `true` when the key is absent from the config file. -/
theorem train_only_target_loss_default (config : TrainConfig)
    (train_instructions test_instructions : List Instruction)
    (model_type : String) :
    ((trainInstructDatasets config train_instructions test_instructions
        model_type).1.only_target_loss = config.only_target_loss.getD true)
    ∧ ((trainInstructDatasets config train_instructions test_instructions
        model_type).2.only_target_loss = config.only_target_loss.getD true)
    ∧ (config.only_target_loss = none →
        (trainInstructDatasets config train_instructions test_instructions
          model_type).1.only_target_loss = true
        ∧ (trainInstructDatasets config train_instructions test_instructions
          model_type).2.only_target_loss = true) := by
  refine ⟨rfl, rfl, ?_⟩
  intro h
  constructor <;> simp [trainInstructDatasets, h]

theorem train_only_target_loss_default_witness :
    (trainInstructDatasets ⟨"m", none, none, 10, 20, none, false⟩ [] []
        "llama").1.only_target_loss = true
    ∧ (trainInstructDatasets ⟨"m", none, none, 10, 20, none, false⟩ [] []
        "llama").2.only_target_loss = true :=
  (train_only_target_loss_default ⟨"m", none, none, 10, 20, none, false⟩
    [] [] "llama").2.2 rfl

/-- C5: both entry points select the dataset reader solely from the
`--dataset_name` argument; exactly the five names `nerel`, `rudrec`,
`nerel_bio`, `conll2003` and `multiconer2023` have a branch, and each name
invokes the listed per-dataset reader function. -/
theorem dataset_dispatch_five_names (dataset_name : String) :
    ((trainDatasetDispatch dataset_name).isSome
        ↔ dataset_name ∈ supportedDatasetNames)
    ∧ ((inferenceDatasetDispatch dataset_name).isSome
        ↔ dataset_name ∈ supportedDatasetNames)
    ∧ (trainDatasetDispatch "nerel"
        = some [ReaderFn.create_train_test_instruct_datasets
            "utils.nerel.nerel_reader"]
      ∧ trainDatasetDispatch "rudrec"
        = some [ReaderFn.create_train_test_instruct_datasets
            "utils.rudrec.rudrec_reader"]
      ∧ trainDatasetDispatch "nerel_bio"
        = some [ReaderFn.create_instruct_dataset "utils.nerel_bio.nerel_reader",
                ReaderFn.create_instruct_dataset "utils.nerel_bio.nerel_reader"]
      ∧ trainDatasetDispatch "conll2003"
        = some [ReaderFn.create_instruct_dataset "utils.conll2003.conll_reader",
                ReaderFn.create_instruct_dataset "utils.conll2003.conll_reader"]
      ∧ trainDatasetDispatch "multiconer2023"
        = some [ReaderFn.create_instruct_dataset
                  "utils.multiconer2023.multiconer_reader",
                ReaderFn.create_instruct_dataset
                  "utils.multiconer2023.multiconer_reader"]
      ∧ inferenceDatasetDispatch "nerel"
        = some (ReaderFn.create_instruct_dataset "utils.nerel.nerel_reader")
      ∧ inferenceDatasetDispatch "rudrec"
        = some (ReaderFn.create_train_test_instruct_datasets
            "utils.rudrec.rudrec_reader")
      ∧ inferenceDatasetDispatch "nerel_bio"
        = some (ReaderFn.create_instruct_dataset "utils.nerel_bio.nerel_reader")
      ∧ inferenceDatasetDispatch "conll2003"
        = some (ReaderFn.create_instruct_dataset "utils.conll2003.conll_reader")
      ∧ inferenceDatasetDispatch "multiconer2023"
        = some (ReaderFn.create_instruct_dataset
            "utils.multiconer2023.multiconer_reader")) := by
  refine ⟨?_, ?_, by decide⟩
  · unfold trainDatasetDispatch supportedDatasetNames
    split_ifs with h1 h2 h3 h4 h5 <;> simp_all
  · unfold inferenceDatasetDispatch supportedDatasetNames
    split_ifs with h1 h2 h3 h4 h5 <;> simp_all

/-- C6: the repository defines no custom exception classes and contains no
`raise` statement; when `--dataset_name` is not one of the supported
names, both scripts fail with a `NameError` raised by the Python runtime
on the first use of the never-assigned dataset variable — not with an
error produced by the repository's own logic. -/
theorem unsupported_dataset_error_origin (dataset_name : String)
    (h : dataset_name ∉ supportedDatasetNames) :
    customExceptionClasses = []
    ∧ repoRaiseStatements = []
    ∧ inferenceSelectDataset dataset_name
        = Except.error ⟨"NameError", ExnOrigin.runtime⟩
    ∧ trainSelectDataset dataset_name
        = Except.error ⟨"NameError", ExnOrigin.runtime⟩
    ∧ ExnOrigin.runtime ≠ ExnOrigin.repo := by
  have h5 : dataset_name ≠ "nerel" ∧ dataset_name ≠ "rudrec"
      ∧ dataset_name ≠ "nerel_bio" ∧ dataset_name ≠ "conll2003"
      ∧ dataset_name ≠ "multiconer2023" := by
    simp only [supportedDatasetNames, List.mem_cons, List.mem_singleton,
      not_or] at h
    simp_all
  obtain ⟨h1, h2, h3, h4, h5⟩ := h5
  refine ⟨rfl, rfl, ?_, ?_, by decide⟩
  · unfold inferenceSelectDataset inferenceDatasetDispatch
    simp [h1, h2, h3, h4, h5, pyVarLookup]
  · unfold trainSelectDataset trainDatasetDispatch
    simp [h1, h2, h3, h4, h5, pyVarLookup]

theorem unsupported_dataset_error_origin_witness :
    customExceptionClasses = []
    ∧ repoRaiseStatements = []
    ∧ inferenceSelectDataset "collection5"
        = Except.error ⟨"NameError", ExnOrigin.runtime⟩
    ∧ trainSelectDataset "collection5"
        = Except.error ⟨"NameError", ExnOrigin.runtime⟩
    ∧ ExnOrigin.runtime ≠ ExnOrigin.repo :=
  unsupported_dataset_error_origin "collection5" (by decide)

/-- C8: the NEREL reader functions ignore every parameter:
`create_train_test_instruct_datasets` always returns the parsed fixed
files `utils/nerel/train_data.jsonl` and `utils/nerel/val_data.jsonl`, and
`create_instruct_dataset` always returns parsed
`utils/nerel/test_data.jsonl`, so two runs with any two parameter
assignments produce identical datasets. -/
theorem nerel_reader_ignores_parameters (D : Type) (json_load : String → D)
    (data_path₁ data_path₂ : String) (max_instances₁ max_instances₂ : Int)
    (text_n_splits₁ text_n_splits₂ : Option Int)
    (short_form_output₁ short_form_output₂ : Bool)
    (test_size₁ test_size₂ : Float) (random_seed₁ random_seed₂ : Int) :
    nerel_reader.create_train_test_instruct_datasets D json_load
        data_path₁ max_instances₁ text_n_splits₁ short_form_output₁
        test_size₁ random_seed₁
      = (json_load "utils/nerel/train_data.jsonl",
         json_load "utils/nerel/val_data.jsonl")
    ∧ nerel_reader.create_train_test_instruct_datasets D json_load
        data_path₁ max_instances₁ text_n_splits₁ short_form_output₁
        test_size₁ random_seed₁
      = nerel_reader.create_train_test_instruct_datasets D json_load
          data_path₂ max_instances₂ text_n_splits₂ short_form_output₂
          test_size₂ random_seed₂
    ∧ nerel_reader.create_instruct_dataset D json_load
        data_path₁ max_instances₁ text_n_splits₁ short_form_output₁
      = json_load "utils/nerel/test_data.jsonl"
    ∧ nerel_reader.create_instruct_dataset D json_load
        data_path₁ max_instances₁ text_n_splits₁ short_form_output₁
      = nerel_reader.create_instruct_dataset D json_load
          data_path₂ max_instances₂ text_n_splits₂ short_form_output₂ :=
  ⟨rfl, rfl, rfl, rfl⟩

/-- C9: in the rudrec branch of the inference script, the test set is
replaced by `test_dataset[:max_instances]` exactly when
`max_instances != -1` and `max_instances < len(test_dataset)`; for
`max_instances ≥ 0` this caps the test set at its first `max_instances`
elements, but for `max_instances < -1` it instead drops the last
`|max_instances|` elements rather than limiting its size. -/
theorem rudrec_max_instances_slice (test_dataset : List α)
    (max_instances : Int) :
    ((max_instances = -1 ∨ (test_dataset.length : Int) ≤ max_instances) →
        rudrecApplyMaxInstances test_dataset max_instances = test_dataset)
    ∧ (max_instances ≠ -1 →
        max_instances < (test_dataset.length : Int) →
        rudrecApplyMaxInstances test_dataset max_instances
          = pySliceTo test_dataset max_instances)
    ∧ (0 ≤ max_instances →
        rudrecApplyMaxInstances test_dataset max_instances
          = test_dataset.take max_instances.toNat)
    ∧ (max_instances < -1 →
        rudrecApplyMaxInstances test_dataset max_instances
          = test_dataset.take
              (test_dataset.length - (-max_instances).toNat)) := by
  refine ⟨?_, ?_, ?_, ?_⟩
  · intro h
    unfold rudrecApplyMaxInstances
    rw [if_neg]
    rcases h with h | h
    · exact fun hc => hc.1 h
    · exact fun hc => absurd hc.2 (by omega)
  · intro h1 h2
    unfold rudrecApplyMaxInstances
    rw [if_pos ⟨h1, h2⟩]
  · intro h
    by_cases hlt : max_instances < (test_dataset.length : Int)
    · unfold rudrecApplyMaxInstances
      rw [if_pos ⟨by omega, hlt⟩]
      unfold pySliceTo
      rw [if_pos h]
    · unfold rudrecApplyMaxInstances
      rw [if_neg (fun hc => absurd hc.2 hlt)]
      have hle : test_dataset.length ≤ max_instances.toNat := by omega
      exact (List.take_of_length_le hle).symm
  · intro h
    unfold rudrecApplyMaxInstances
    rw [if_pos ⟨by omega, by omega⟩]
    unfold pySliceTo
    rw [if_neg (by omega)]

theorem rudrec_max_instances_slice_witness :
    rudrecApplyMaxInstances ([10, 11, 12, 13, 14] : List Nat) (-2)
      = List.take (([10, 11, 12, 13, 14] : List Nat).length
          - (-(-2 : Int)).toNat) [10, 11, 12, 13, 14] :=
  (rudrec_max_instances_slice [10, 11, 12, 13, 14] (-2)).2.2.2 (by decide)

/-- C10: for every config providing `max_source_tokens_count` and
`max_target_tokens_count`, whenever a branch of the model-loading logic of
`train` completes, the script then sets the model's default generation
limits: `model.config.max_length` becomes
`max_source_tokens_count + max_target_tokens_count + 1` (exact integer
arithmetic) and `model.config.num_beams` becomes `5`. -/
theorem train_generation_defaults (config : TrainConfig)
    (peft_base_path : String) (initBeams initLen : TrainModelExpr → Int)
    (model : TrainModel)
    (h : loadTrainModel config peft_base_path initBeams initLen = some model) :
    (trainSetGenerationDefaults config model).num_beams = 5
    ∧ (trainSetGenerationDefaults config model).max_length
        = config.max_source_tokens_count + config.max_target_tokens_count + 1 := by
  refine ⟨rfl, ?_⟩
  unfold trainSetGenerationDefaults
  dsimp only
  ring

theorem train_generation_defaults_witness :
    (trainSetGenerationDefaults ⟨"llama-7b", some "r16", none, 256, 512, none, true⟩
        ⟨TrainModelExpr.adapter8bit "base" "llama-7b", 0, 0⟩).num_beams = 5
    ∧ (trainSetGenerationDefaults ⟨"llama-7b", some "r16", none, 256, 512, none, true⟩
        ⟨TrainModelExpr.adapter8bit "base" "llama-7b", 0, 0⟩).max_length
        = 256 + 512 + 1 :=
  train_generation_defaults ⟨"llama-7b", some "r16", none, 256, 512, none, true⟩
    "base" (fun _ => 0) (fun _ => 0)
    ⟨TrainModelExpr.adapter8bit "base" "llama-7b", 0, 0⟩ rfl

end NestedNer
